import Mathlib

/-!
Shallow embedding of the Joy-Con 2 Web Bluetooth demo (src/App.vue and
src/generateLEDPattern.ts) together with proofs about its button decoding,
motion integration, LED pattern sequencing and connection orchestration.

Machine integers are modelled as `Nat`/`Int` with explicit bounds; the
`DataView` of an inbound report is a `List Nat` of bytes; each fallible
browser call is an `Except` outcome supplied by an abstract environment.
-/

/-- `POSITION_WRAPAROUND_THRESHOLD` from App.vue. -/
def POSITION_WRAPAROUND_THRESHOLD : Int := 15000

/-- `MOUSE_DISPLAY_SCALE` from App.vue (UI only). -/
def MOUSE_DISPLAY_SCALE : Nat := 20

/-- The two controller sides (`ControllerType` in App.vue). -/
inductive ControllerType
  | L
  | R
deriving DecidableEq

/-- `controllerByteOffsetMap` from App.vue: the byte offset of the button
bitmask in an inbound report, per side. -/
def controllerByteOffsetMap : ControllerType → Nat
  | .L => 6
  | .R => 4

/-- `calculateDeltaWithWraparound` from App.vue: naive 16-bit counter delta,
corrected by ±65536 when it exceeds the wraparound threshold. -/
def calculateDeltaWithWraparound (current previous : Int) : Int :=
  let delta := current - previous
  if delta > POSITION_WRAPAROUND_THRESHOLD then
    delta - 65536
  else if delta < -POSITION_WRAPAROUND_THRESHOLD then
    delta + 65536
  else
    delta

/-- Per-side mouse state (`createMouseState` shape in App.vue):
`rawPosition` is the last raw 16-bit counter pair, `accumulatedPosition`
the running signed sum of corrected deltas. -/
structure MouseState where
  rawX : Nat
  rawY : Nat
  accX : Int
  accY : Int
deriving DecidableEq

/-- `createMouseState` from App.vue: all-zero initial state. -/
def createMouseState : MouseState :=
  { rawX := 0, rawY := 0, accX := 0, accY := 0 }

/-- `DataView.getUint8`: bounds-checked single-byte read (a JS `RangeError`
on an out-of-range offset is modelled as `none`). -/
def getUint8 (buf : List Nat) (off : Nat) : Option Nat :=
  if off < buf.length then some (buf.getD off 0) else none

/-- `DataView.getUint16(off, true)`: bounds-checked little-endian 16-bit
read. -/
def getUint16LE (buf : List Nat) (off : Nat) : Option Nat :=
  match getUint8 buf off, getUint8 buf (off + 1) with
  | some lo, some hi => some (lo + 256 * hi)
  | _, _ => none

/-- `processMouseInputReport` from App.vue: read the raw X/Y counters at
offsets 16 and 18 (little endian), correct the deltas against the stored
raw position, overwrite the raw position and accumulate.  `none` models the
`RangeError` a short buffer raises before any state is mutated. -/
def processMouseInputReport (buf : List Nat) (st : MouseState) : Option MouseState :=
  match getUint16LE buf 16, getUint16LE buf 18 with
  | some currentRawX, some currentRawY =>
      some { rawX := currentRawX, rawY := currentRawY,
             accX := st.accX + calculateDeltaWithWraparound currentRawX st.rawX,
             accY := st.accY + calculateDeltaWithWraparound currentRawY st.rawY }
  | _, _ => none

/-- The fixed 8-element LED nibble cycle yielded by `generateLEDPattern`
(src/generateLEDPattern.ts). -/
def ledPatternCycle : List Nat := [0x01, 0x03, 0x07, 0x0f, 0x09, 0x05, 0x0d, 0x06]

/-- One `next()` call on the `generateLEDPattern` generator, modelled as a
pure function of the suspended generator's cursor: returns the yielded
value and the advanced cursor. -/
def generateLEDPatternNext (cursor : Nat) : Nat × Nat :=
  (ledPatternCycle.getD (cursor % 8) 0, cursor + 1)

/-- The cursor and the list of all values produced by the first `n` calls
of `next()` on a fresh `generateLEDPattern()` generator. -/
def ledCalls : Nat → Nat × List Nat
  | 0 => (0, [])
  | n + 1 =>
      let p := ledCalls n
      let q := generateLEDPatternNext p.1
      (q.2, p.2 ++ [q.1])

/-- A JavaScript thrown value, as the demo distinguishes them:
an `Error` object carrying a message, the literal number `2` that the
Bluefy browser rejects with on chooser cancellation, or any other
truthy non-`Error` value. -/
inductive JsError
  | errorObj (msg : String)
  | raw2
  | other
deriving DecidableEq

/-- `errorMessage` computed ref from App.vue: the message of an `Error`,
a generic fallback for any other thrown value, `none` when no error is
stored. -/
def errorMessage : Option JsError → Option String
  | none => none
  | some (.errorObj m) => some m
  | some .raw2 => some "An unknown error occurred"
  | some .other => some "An unknown error occurred"

/-- The reactive application state of App.vue: per-side mouse state and
pressed mask, the stored error, and the cursor of the module-level
`ledPatternGenerator`. -/
structure AppState where
  mouseL : MouseState
  mouseR : MouseState
  pressedL : Nat
  pressedR : Nat
  errorRef : Option JsError
  ledCursor : Nat
deriving DecidableEq

/-- `mouseState[type]`. -/
def stMouse (st : AppState) : ControllerType → MouseState
  | .L => st.mouseL
  | .R => st.mouseR

/-- `pressed[type]`. -/
def stPressed (st : AppState) : ControllerType → Nat
  | .L => st.pressedL
  | .R => st.pressedR

/-- `mouseState[type] = m`. -/
def setMouse (st : AppState) (t : ControllerType) (m : MouseState) : AppState :=
  match t with
  | .L => { st with mouseL := m }
  | .R => { st with mouseR := m }

/-- `pressed[type] = p`. -/
def setPressed (st : AppState) (t : ControllerType) (p : Nat) : AppState :=
  match t with
  | .L => { st with pressedL := p }
  | .R => { st with pressedR := p }

/-- The `characteristicvaluechanged` listener registered by `connect`:
run `processMouseInputReport`, then read the button byte.  A `RangeError`
raised by an out-of-bounds read aborts the listener at that point, leaving
all state not yet assigned unchanged (the report is dropped, the
subscription survives). -/
def onCharacteristicValueChanged (buf : List Nat) (type : ControllerType)
    (st : AppState) : AppState :=
  match processMouseInputReport buf (stMouse st type) with
  | none => st
  | some m =>
      let st1 := setMouse st type m
      match getUint8 buf (controllerByteOffsetMap type) with
      | none => st1
      | some p => setPressed st1 type p

/-- A 20-byte report whose byte 6 is `0b00001011`. -/
def exampleReport : List Nat :=
  [0, 0, 0, 0, 0, 0, 0b00001011, 0, 0, 0, 0, 0, 0, 0, 0, 0, 0, 0, 0, 0]

/-- A Bluetooth device as `connect` inspects it: whether `device.gatt` is
present. -/
structure Device where
  hasGatt : Bool
deriving DecidableEq

/-- Outcomes of the external (browser / transport) calls awaited by one run
of `connect`, in program order.  Each is either success or a thrown value. -/
structure Env where
  requestDevice : Except JsError Device
  gattConnect : Except JsError Unit
  getPrimaryService : Except JsError Unit
  getWriteCharacteristic : Except JsError Unit
  writeLed : Except JsError Unit
  writeIndicatorA : Except JsError Unit
  writeIndicatorB : Except JsError Unit
  getInputCharacteristic : Except JsError Unit
  startNotify : Except JsError Unit

/-- An observable outbound action of `connect`: a
`writeValueWithoutResponse` of a command buffer, or a `sleep`. -/
inductive TraceEvent
  | write (bytes : List Nat)
  | sleepMs (ms : Nat)
deriving DecidableEq

/-- The 16-byte LED-set command built in `connect`, with the generator's
value at byte index 8. -/
def ledCommand (pattern : Nat) : List Nat :=
  [0x09, 0x91, 0x01, 0x07, 0x00, 0x08, 0x00, 0x00, pattern,
   0x00, 0x00, 0x00, 0x00, 0x00, 0x00, 0x00]

/-- The first fixed 12-byte indicator command written by `connect`. -/
def indicatorCommandA : List Nat :=
  [0x0c, 0x91, 0x01, 0x02, 0x00, 0x04, 0x00, 0x00, 0xff, 0x00, 0x00, 0x00]

/-- The second fixed 12-byte indicator command written by `connect`. -/
def indicatorCommandB : List Nat :=
  [0x0c, 0x91, 0x01, 0x04, 0x00, 0x04, 0x00, 0x00, 0xff, 0x00, 0x00, 0x00]

/-- The `.catch` attached to `requestDevice` in App.vue: in Bluefy a
rejection with the literal `2` is replaced by an `Error` with a
cancellation message; everything else is rethrown unchanged. -/
def mapRequestError (isBluefy : Bool) (e : JsError) : JsError :=
  if isBluefy = true ∧ e = JsError.raw2 then
    JsError.errorObj "User cancelled the requestDevice() chooser in Bluefy app."
  else e

/-- `requestDevice(...).catch(...)` as one `Except` outcome. -/
def requestDeviceWithCatch (isBluefy : Bool) (res : Except JsError Device) :
    Except JsError Device :=
  match res with
  | .ok d => .ok d
  | .error e => .error (mapRequestError isBluefy e)

/-- `{ st with errorRef := some e }`: what the `catch` block of `connect`
does to the application state. -/
def setError (st : AppState) (e : JsError) : AppState :=
  { st with errorRef := some e }

/-- Result of one `connect` run: the final application state, the sequence
of outbound transport actions, and whether the inbound-report subscription
was established (the listener attached). -/
structure ConnectResult where
  state : AppState
  trace : List TraceEvent
  streaming : Bool
deriving DecidableEq

/-- The tail of `connect` after the three writes: fetch the input-report
characteristic, start notifications, reset `mouseState[type]`, attach the
listener and clear `errorRef`. -/
def connectStreamingPhase (env : Env) (type : ControllerType) (st : AppState)
    (tr : List TraceEvent) : ConnectResult :=
  match env.getInputCharacteristic with
  | .error e => ⟨setError st e, tr, false⟩
  | .ok _ =>
  match env.startNotify with
  | .error e => ⟨setError st e, tr, false⟩
  | .ok _ =>
      ⟨{ setMouse st type createMouseState with errorRef := none }, tr, true⟩

/-- The configuration stage of `connect`: build the LED command (which
consumes `ledPatternGenerator.next()`), write it, sleep 500ms, write the
two indicator commands with another 500ms sleep between them, then hand
over to the streaming phase. -/
def connectConfiguringPhase (env : Env) (type : ControllerType) (st : AppState) :
    ConnectResult :=
  let nextVal := generateLEDPatternNext st.ledCursor
  let st1 := { st with ledCursor := nextVal.2 }
  let tr1 := [TraceEvent.write (ledCommand nextVal.1)]
  match env.writeLed with
  | .error e => ⟨setError st1 e, tr1, false⟩
  | .ok _ =>
  let tr2 := tr1 ++ [TraceEvent.sleepMs 500, TraceEvent.write indicatorCommandA]
  match env.writeIndicatorA with
  | .error e => ⟨setError st1 e, tr2, false⟩
  | .ok _ =>
  let tr3 := tr2 ++ [TraceEvent.sleepMs 500, TraceEvent.write indicatorCommandB]
  match env.writeIndicatorB with
  | .error e => ⟨setError st1 e, tr3, false⟩
  | .ok _ => connectStreamingPhase env type st1 tr3

/-- The `connect` function of App.vue over an abstract environment: every
failure is caught by the surrounding `try`/`catch`, which stores the thrown
value in `errorRef` and mutates nothing else. -/
def connect (isBluefy : Bool) (env : Env) (type : ControllerType) (st : AppState) :
    ConnectResult :=
  match requestDeviceWithCatch isBluefy env.requestDevice with
  | .error e => ⟨setError st e, [], false⟩
  | .ok device =>
      if device.hasGatt then
        match env.gattConnect with
        | .error e => ⟨setError st e, [], false⟩
        | .ok _ =>
        match env.getPrimaryService with
        | .error e => ⟨setError st e, [], false⟩
        | .ok _ =>
        match env.getWriteCharacteristic with
        | .error e => ⟨setError st e, [], false⟩
        | .ok _ => connectConfiguringPhase env type st
      else ⟨setError st (JsError.errorObj "Device does not support GATT"), [], false⟩

/-- Whether a run of `connect` gets as far as building the LED command
(i.e. past device selection, the GATT check, link, service and write
characteristic resolution). -/
def reachesConfiguring (isBluefy : Bool) (env : Env) : Bool :=
  (match requestDeviceWithCatch isBluefy env.requestDevice with
   | .ok d => d.hasGatt
   | .error _ => false) &&
  (match env.gattConnect with | .ok _ => true | .error _ => false) &&
  (match env.getPrimaryService with | .ok _ => true | .error _ => false) &&
  (match env.getWriteCharacteristic with | .ok _ => true | .error _ => false)

/-- All external calls of one `connect` run succeed and the device exposes
GATT. -/
def Env.allOk (env : Env) : Prop :=
  env.requestDevice = .ok ⟨true⟩ ∧ env.gattConnect = .ok () ∧
  env.getPrimaryService = .ok () ∧ env.getWriteCharacteristic = .ok () ∧
  env.writeLed = .ok () ∧ env.writeIndicatorA = .ok () ∧
  env.writeIndicatorB = .ok () ∧ env.getInputCharacteristic = .ok () ∧
  env.startNotify = .ok ()

/-- An environment in which every external call succeeds. -/
def envOk : Env :=
  ⟨.ok ⟨true⟩, .ok (), .ok (), .ok (), .ok (), .ok (), .ok (), .ok (), .ok ()⟩

/-- An environment that fails at the LED write (after the write
characteristic was resolved). -/
def envFailLedWrite : Env :=
  ⟨.ok ⟨true⟩, .ok (), .ok (), .ok (), .error (.errorObj "GATT operation failed"),
   .ok (), .ok (), .ok (), .ok ()⟩

/-- An environment in which the user cancels the chooser in Bluefy: the
`requestDevice` promise rejects with the literal `2`. -/
def envCancelBluefy : Env :=
  ⟨.error .raw2, .ok (), .ok (), .ok (), .ok (), .ok (), .ok (), .ok (), .ok ()⟩

/-- The all-zero initial application state. -/
def initialAppState : AppState :=
  { mouseL := createMouseState, mouseR := createMouseState,
    pressedL := 0, pressedR := 0, errorRef := none, ledCursor := 0 }

/-- The state where a previous session left the Left pressed mask at 5. -/
def statePressed5 : AppState :=
  { initialAppState with pressedL := 5 }

/-- Fold a sequence of inbound reports through `processMouseInputReport`
in arrival order; a short report raises before mutating and is dropped. -/
def applyValidReports : List (List Nat) → MouseState → MouseState
  | [], st => st
  | r :: rs, st =>
      match processMouseInputReport r st with
      | some st' => applyValidReports rs st'
      | none => applyValidReports rs st

/-- The corrected per-report deltas (X, Y) that a sequence of reports
produces, each computed by `calculateDeltaWithWraparound` against the raw
counter left by the preceding accepted report; dropped reports contribute
nothing. -/
def correctedDeltas : List (List Nat) → MouseState → List (Int × Int)
  | [], _ => []
  | r :: rs, st =>
      match getUint16LE r 16, getUint16LE r 18 with
      | some x, some y =>
          (calculateDeltaWithWraparound x st.rawX, calculateDeltaWithWraparound y st.rawY) ::
            correctedDeltas rs
              { rawX := x, rawY := y,
                accX := st.accX + calculateDeltaWithWraparound x st.rawX,
                accY := st.accY + calculateDeltaWithWraparound y st.rawY }
      | _, _ => correctedDeltas rs st

theorem ledCalls_fst (n : Nat) : (ledCalls n).1 = n := by
  induction n with
  | zero => rfl
  | succ n ih => simp [ledCalls, generateLEDPatternNext, ih]

theorem stPressed_setPressed (st : AppState) (t : ControllerType) (p : Nat) :
    stPressed (setPressed st t p) t = p := by
  cases t <;> rfl

theorem stPressed_setMouse (st : AppState) (t t' : ControllerType) (m : MouseState) :
    stPressed (setMouse st t m) t' = stPressed st t' := by
  cases t <;> cases t' <;> rfl

theorem stMouse_setMouse_self (st : AppState) (t : ControllerType) (m : MouseState) :
    stMouse (setMouse st t m) t = m := by
  cases t <;> rfl

theorem getUint8_of_lt {buf : List Nat} {off : Nat} (h : off < buf.length) :
    getUint8 buf off = some (buf.getD off 0) :=
  if_pos h

theorem getUint8_of_ge {buf : List Nat} {off : Nat} (h : buf.length ≤ off) :
    getUint8 buf off = none :=
  if_neg (by omega)

theorem getUint16LE_of_le {buf : List Nat} {off : Nat} (h : off + 2 ≤ buf.length) :
    getUint16LE buf off = some (buf.getD off 0 + 256 * buf.getD (off + 1) 0) := by
  unfold getUint16LE
  rw [getUint8_of_lt (show off < buf.length by omega),
    getUint8_of_lt (show off + 1 < buf.length by omega)]

theorem getUint16LE_of_short {buf : List Nat} {off : Nat} (h : buf.length < off + 2) :
    getUint16LE buf off = none := by
  unfold getUint16LE
  rw [getUint8_of_ge (show buf.length ≤ off + 1 by omega)]
  cases getUint8 buf off <;> rfl

theorem processMouseInputReport_of_le {buf : List Nat} (st : MouseState)
    (h : 20 ≤ buf.length) :
    processMouseInputReport buf st =
      some { rawX := buf.getD 16 0 + 256 * buf.getD (16 + 1) 0,
             rawY := buf.getD 18 0 + 256 * buf.getD (18 + 1) 0,
             accX := st.accX +
               calculateDeltaWithWraparound (↑(buf.getD 16 0 + 256 * buf.getD (16 + 1) 0)) st.rawX,
             accY := st.accY +
               calculateDeltaWithWraparound (↑(buf.getD 18 0 + 256 * buf.getD (18 + 1) 0)) st.rawY } := by
  unfold processMouseInputReport
  rw [getUint16LE_of_le (show 16 + 2 ≤ buf.length by omega),
    getUint16LE_of_le (show 18 + 2 ≤ buf.length by omega)]

theorem processMouseInputReport_of_short {buf : List Nat} (st : MouseState)
    (h : buf.length < 20) :
    processMouseInputReport buf st = none := by
  unfold processMouseInputReport
  rw [getUint16LE_of_short (show buf.length < 18 + 2 by omega)]
  cases getUint16LE buf 16 <;> rfl

/-- Claim C5: on a buffer covering all required offsets the decoded pressed
mask is, verbatim, the byte at the side's button offset (6 for L, 4 for R);
a 20-byte buffer with byte 6 = `0b00001011` decodes to mask `0x0B` for the
Left side; on a buffer too short for the required offsets the report is
dropped and the prior decoded state (pressed mask and accumulated position)
is unchanged — in particular on any buffer shorter than 7 bytes. -/
theorem buttonDecode_mask_and_short_buffer (buf : List Nat) (type : ControllerType)
    (st st' : AppState) :
    (20 ≤ buf.length →
        stPressed (onCharacteristicValueChanged buf type st) type =
          buf.getD (controllerByteOffsetMap type) 0) ∧
    (buf.length < 20 → onCharacteristicValueChanged buf type st = st) ∧
    (buf.length < controllerByteOffsetMap type + 1 →
        onCharacteristicValueChanged buf type st = st) ∧
    stPressed (onCharacteristicValueChanged exampleReport ControllerType.L st') ControllerType.L =
      0x0B := by
  have hshort : ∀ (b : List Nat) (t : ControllerType) (s : AppState), b.length < 20 →
      onCharacteristicValueChanged b t s = s := by
    intro b t s hb
    unfold onCharacteristicValueChanged
    rw [processMouseInputReport_of_short _ hb]
  have hlong : ∀ (b : List Nat) (t : ControllerType) (s : AppState), 20 ≤ b.length →
      stPressed (onCharacteristicValueChanged b t s) t =
        b.getD (controllerByteOffsetMap t) 0 := by
    intro b t s hb
    have hoff : controllerByteOffsetMap t < b.length := by
      cases t <;> simp only [controllerByteOffsetMap] <;> omega
    unfold onCharacteristicValueChanged
    rw [processMouseInputReport_of_le _ hb, getUint8_of_lt hoff]
    exact stPressed_setPressed _ _ _
  refine ⟨hlong buf type st, hshort buf type st, ?_, ?_⟩
  · intro h
    apply hshort
    cases type <;> simp only [controllerByteOffsetMap] at h <;> omega
  · rw [hlong exampleReport ControllerType.L st' (by decide)]
    rfl

/-- Witness for C5 at a 3-byte buffer and at `exampleReport`. -/
theorem buttonDecode_mask_and_short_buffer_witness :
    onCharacteristicValueChanged [1, 2, 3] ControllerType.L
        { mouseL := createMouseState, mouseR := createMouseState,
          pressedL := 7, pressedR := 0, errorRef := none, ledCursor := 0 } =
      { mouseL := createMouseState, mouseR := createMouseState,
        pressedL := 7, pressedR := 0, errorRef := none, ledCursor := 0 } ∧
    stPressed (onCharacteristicValueChanged exampleReport ControllerType.L
        { mouseL := createMouseState, mouseR := createMouseState,
          pressedL := 7, pressedR := 0, errorRef := none, ledCursor := 0 })
      ControllerType.L = 0x0B := by
  have h := buttonDecode_mask_and_short_buffer [1, 2, 3] ControllerType.L
    { mouseL := createMouseState, mouseR := createMouseState,
      pressedL := 7, pressedR := 0, errorRef := none, ledCursor := 0 }
    { mouseL := createMouseState, mouseR := createMouseState,
      pressedL := 7, pressedR := 0, errorRef := none, ledCursor := 0 }
  exact ⟨h.2.1 (by decide), h.2.2.2⟩

theorem stMouse_setError (st : AppState) (e : JsError) (t : ControllerType) :
    stMouse (setError st e) t = stMouse st t := by
  cases t <;> rfl

theorem stPressed_setError (st : AppState) (e : JsError) (t : ControllerType) :
    stPressed (setError st e) t = stPressed st t := by
  cases t <;> rfl

theorem stMouse_cursor (st : AppState) (c : Nat) (t : ControllerType) :
    stMouse { st with ledCursor := c } t = stMouse st t := by
  cases t <;> rfl

theorem stPressed_cursor (st : AppState) (c : Nat) (t : ControllerType) :
    stPressed { st with ledCursor := c } t = stPressed st t := by
  cases t <;> rfl

theorem stMouse_clearError (st : AppState) (t : ControllerType) :
    stMouse { st with errorRef := none } t = stMouse st t := by
  cases t <;> rfl

theorem stPressed_clearError (st : AppState) (t : ControllerType) :
    stPressed { st with errorRef := none } t = stPressed st t := by
  cases t <;> rfl

theorem ledCursor_setMouse (st : AppState) (t : ControllerType) (m : MouseState) :
    (setMouse st t m).ledCursor = st.ledCursor := by
  cases t <;> rfl

theorem errorMessage_isSome (e : JsError) : ∃ m, errorMessage (some e) = some m := by
  cases e <;> exact ⟨_, rfl⟩

theorem applyValidReports_acc (reports : List (List Nat)) :
    ∀ st : MouseState,
      (applyValidReports reports st).accX =
        st.accX + ((correctedDeltas reports st).map Prod.fst).sum ∧
      (applyValidReports reports st).accY =
        st.accY + ((correctedDeltas reports st).map Prod.snd).sum := by
  induction reports with
  | nil => intro st; simp [applyValidReports, correctedDeltas]
  | cons r rs ih =>
      intro st
      cases hx : getUint16LE r 16 with
      | none =>
          have hp : processMouseInputReport r st = none := by
            simp [processMouseInputReport, hx]
          simp only [applyValidReports, correctedDeltas, hp, hx]
          exact ih st
      | some x =>
          cases hy : getUint16LE r 18 with
          | none =>
              have hp : processMouseInputReport r st = none := by
                simp [processMouseInputReport, hx, hy]
              simp only [applyValidReports, correctedDeltas, hp, hx, hy]
              exact ih st
          | some y =>
              have hp : processMouseInputReport r st = some
                  (⟨x, y, st.accX + calculateDeltaWithWraparound x st.rawX,
                    st.accY + calculateDeltaWithWraparound y st.rawY⟩ : MouseState) := by
                unfold processMouseInputReport
                rw [hx, hy]
              have hih := ih (⟨x, y, st.accX + calculateDeltaWithWraparound x st.rawX,
                st.accY + calculateDeltaWithWraparound y st.rawY⟩ : MouseState)
              simp only [applyValidReports, correctedDeltas, hp, hx, hy, List.map_cons,
                List.sum_cons]
              constructor
              · rw [hih.1]; dsimp only; ring
              · rw [hih.2]; dsimp only; ring

theorem connectStreamingPhase_shape (env : Env) (t : ControllerType) (st : AppState)
    (tr : List TraceEvent) :
    (∃ e, connectStreamingPhase env t st tr = ⟨setError st e, tr, false⟩) ∨
    connectStreamingPhase env t st tr =
      ⟨{ setMouse st t createMouseState with errorRef := none }, tr, true⟩ := by
  unfold connectStreamingPhase
  cases env.getInputCharacteristic with
  | error e => exact Or.inl ⟨e, rfl⟩
  | ok u =>
      cases env.startNotify with
      | error e => exact Or.inl ⟨e, rfl⟩
      | ok u => exact Or.inr rfl

theorem connectConfiguringPhase_shape (env : Env) (t : ControllerType) (st : AppState) :
    (∃ e, (connectConfiguringPhase env t st).state =
            setError { st with ledCursor := st.ledCursor + 1 } e ∧
          (connectConfiguringPhase env t st).streaming = false) ∨
    ((connectConfiguringPhase env t st).state =
        { setMouse { st with ledCursor := st.ledCursor + 1 } t createMouseState with
            errorRef := none } ∧
     (connectConfiguringPhase env t st).streaming = true) := by
  unfold connectConfiguringPhase
  dsimp only [generateLEDPatternNext]
  cases env.writeLed with
  | error e => exact Or.inl ⟨e, rfl, rfl⟩
  | ok u =>
  cases env.writeIndicatorA with
  | error e => exact Or.inl ⟨e, rfl, rfl⟩
  | ok u =>
  cases env.writeIndicatorB with
  | error e => exact Or.inl ⟨e, rfl, rfl⟩
  | ok u =>
      have hs := connectStreamingPhase_shape env t { st with ledCursor := st.ledCursor + 1 }
        ([TraceEvent.write (ledCommand (ledPatternCycle.getD (st.ledCursor % 8) 0))] ++
          [TraceEvent.sleepMs 500, TraceEvent.write indicatorCommandA] ++
          [TraceEvent.sleepMs 500, TraceEvent.write indicatorCommandB])
      rcases hs with ⟨e, he⟩ | he
      · exact Or.inl ⟨e, by rw [he], by rw [he]⟩
      · exact Or.inr ⟨by rw [he], by rw [he]⟩

theorem connect_shape (b : Bool) (env : Env) (t : ControllerType) (st : AppState) :
    (∃ e, (connect b env t st).state = setError st e ∧
          (connect b env t st).streaming = false) ∨
    (∃ e, (connect b env t st).state = setError { st with ledCursor := st.ledCursor + 1 } e ∧
          (connect b env t st).streaming = false) ∨
    ((connect b env t st).state =
        { setMouse { st with ledCursor := st.ledCursor + 1 } t createMouseState with
            errorRef := none } ∧
     (connect b env t st).streaming = true) := by
  unfold connect
  cases requestDeviceWithCatch b env.requestDevice with
  | error e => exact Or.inl ⟨e, rfl, rfl⟩
  | ok device =>
      cases device with
      | mk g =>
          cases g with
          | false => exact Or.inl ⟨_, rfl, rfl⟩
          | true =>
              dsimp only
              rw [if_pos rfl]
              cases env.gattConnect with
              | error e => exact Or.inl ⟨e, rfl, rfl⟩
              | ok u =>
              cases env.getPrimaryService with
              | error e => exact Or.inl ⟨e, rfl, rfl⟩
              | ok u =>
              cases env.getWriteCharacteristic with
              | error e => exact Or.inl ⟨e, rfl, rfl⟩
              | ok u =>
                  rcases connectConfiguringPhase_shape env t st with h | h
                  · exact Or.inr (Or.inl h)
                  · exact Or.inr (Or.inr h)

/-- Claim C1: the motion delta function computes the naive delta
`current − previous`, subtracts 65536 when the naive delta exceeds 15000,
adds 65536 when it is below −15000, and otherwise leaves it unchanged; for
any 16-bit `a`, `b` with `|a − b| ≤ 15000` it returns exactly `a − b`; and
`delta 5 65530 = 11`, `delta 65530 5 = -11`. -/
theorem calculateDelta_correction_rule (current previous a b : Nat)
    (hc : current < 65536) (hp : previous < 65536)
    (ha : a < 65536) (hb : b < 65536)
    (hclose : (a : Int) - (b : Int) ≤ 15000 ∧ (b : Int) - (a : Int) ≤ 15000) :
    ((current : Int) - previous > 15000 →
        calculateDeltaWithWraparound current previous = (current : Int) - previous - 65536) ∧
    ((current : Int) - previous < -15000 →
        calculateDeltaWithWraparound current previous = (current : Int) - previous + 65536) ∧
    (-15000 ≤ (current : Int) - previous → (current : Int) - previous ≤ 15000 →
        calculateDeltaWithWraparound current previous = (current : Int) - previous) ∧
    calculateDeltaWithWraparound a b = (a : Int) - b ∧
    calculateDeltaWithWraparound 5 65530 = 11 ∧
    calculateDeltaWithWraparound 65530 5 = -11 := by
  obtain ⟨h1, h2⟩ := hclose
  refine ⟨?_, ?_, ?_, ?_, ?_, ?_⟩ <;>
    simp only [calculateDeltaWithWraparound, POSITION_WRAPAROUND_THRESHOLD] <;>
    split_ifs <;> omega

/-- Witness for C1 at `current = 5`, `previous = 65530`, `a = 17`, `b = 3`. -/
theorem calculateDelta_correction_rule_witness :
    calculateDeltaWithWraparound 5 65530 = 11 ∧
    calculateDeltaWithWraparound 17 3 = 14 := by
  have h := calculateDelta_correction_rule 5 65530 17 3
    (by decide) (by decide) (by decide) (by decide) (by constructor <;> decide)
  refine ⟨h.2.2.2.2.1, ?_⟩
  have := h.2.2.2.1
  simpa using this

/-- Claim C10: for every pair of 16-bit values the corrected delta is
congruent to `current − previous` modulo 65536, and its absolute value is
at most 50535 (never the ±65536-scale naive jump). -/
theorem calculateDelta_mod_and_bound (current previous : Nat)
    (hc : current < 65536) (hp : previous < 65536) :
    calculateDeltaWithWraparound current previous % 65536 =
      ((current : Int) - previous) % 65536 ∧
    |calculateDeltaWithWraparound current previous| ≤ 50535 := by
  constructor
  · simp only [calculateDeltaWithWraparound, POSITION_WRAPAROUND_THRESHOLD]
    split_ifs <;> omega
  · rw [abs_le]
    constructor <;>
      simp only [calculateDeltaWithWraparound, POSITION_WRAPAROUND_THRESHOLD] <;>
      split_ifs <;> omega

/-- Witness for C10 at `current = 5`, `previous = 65530`. -/
theorem calculateDelta_mod_and_bound_witness :
    calculateDeltaWithWraparound 5 65530 % 65536 = ((5 : Int) - 65530) % 65536 ∧
    |calculateDeltaWithWraparound 5 65530| ≤ 50535 :=
  calculateDelta_mod_and_bound 5 65530 (by decide) (by decide)

/-- Claim C7: the first 9 `next()` calls on the LED pattern generator yield
`[1, 3, 7, 15, 9, 5, 13, 6, 1]`, and for every `n` the value produced by
the `(n+1)`-st call is `ledPatternCycle[n % 8]`. -/
theorem generateLEDPattern_cycle :
    (ledCalls 9).2 = [1, 3, 7, 15, 9, 5, 13, 6, 1] ∧
    ∀ n : Nat, (ledCalls (n + 1)).2 = (ledCalls n).2 ++ [ledPatternCycle.getD (n % 8) 0] := by
  constructor
  · rfl
  · intro n
    simp [ledCalls, generateLEDPatternNext, ledCalls_fst n]

theorem connectConfiguringPhase_cursor (env : Env) (t : ControllerType) (st : AppState) :
    (connectConfiguringPhase env t st).state.ledCursor = st.ledCursor + 1 := by
  rcases connectConfiguringPhase_shape env t st with ⟨e, he, _⟩ | ⟨he, _⟩
  · rw [he]; rfl
  · rw [he]; cases t <;> rfl

theorem connectConfiguringPhase_traceHead (env : Env) (t : ControllerType) (st : AppState) :
    (connectConfiguringPhase env t st).trace.head? =
      some (TraceEvent.write (ledCommand (ledPatternCycle.getD (st.ledCursor % 8) 0))) := by
  unfold connectConfiguringPhase connectStreamingPhase
  dsimp only [generateLEDPatternNext]
  cases env.writeLed with
  | error e => rfl
  | ok u =>
  cases env.writeIndicatorA with
  | error e => rfl
  | ok u =>
  cases env.writeIndicatorB with
  | error e => rfl
  | ok u =>
  cases env.getInputCharacteristic with
  | error e => rfl
  | ok u =>
  cases env.startNotify with
  | error e => rfl
  | ok u => rfl

theorem connect_allOk (b : Bool) (env : Env) (t : ControllerType) (st : AppState)
    (h : Env.allOk env) :
    connect b env t st =
      ⟨{ setMouse { st with ledCursor := st.ledCursor + 1 } t createMouseState with
           errorRef := none },
       [TraceEvent.write (ledCommand (ledPatternCycle.getD (st.ledCursor % 8) 0)),
        TraceEvent.sleepMs 500, TraceEvent.write indicatorCommandA,
        TraceEvent.sleepMs 500, TraceEvent.write indicatorCommandB], true⟩ := by
  obtain ⟨h1, h2, h3, h4, h5, h6, h7, h8, h9⟩ := h
  unfold connect requestDeviceWithCatch connectConfiguringPhase connectStreamingPhase
  rw [h1, h2, h3, h4, h5, h6, h7, h8, h9]
  rfl

theorem connect_streaming_state (b : Bool) (env : Env) (t : ControllerType) (st : AppState)
    (h : (connect b env t st).streaming = true) :
    (connect b env t st).state =
      { setMouse { st with ledCursor := st.ledCursor + 1 } t createMouseState with
          errorRef := none } := by
  rcases connect_shape b env t st with ⟨e, he, hs⟩ | ⟨e, he, hs⟩ | ⟨he, hs⟩
  · exact absurd (h.symm.trans hs) (by decide)
  · exact absurd (h.symm.trans hs) (by decide)
  · exact he

/-- Claim C2: accumulated position after a sequence of updates from the
reset state equals the exact per-axis sum of the corrected deltas; every
successful (re)connection resets the side's mouse state to the configured
reset state (accumulated position `(0,0)`, raw counter `(0,0)`) regardless
of its prior value, so the first report after connecting is processed
against the reset baseline, independent of stale data from a prior
session. -/
theorem accumulatedPosition_sum_and_reset (reports : List (List Nat)) (r : List Nat)
    (b : Bool) (env : Env) (t : ControllerType) (st : AppState)
    (h : (connect b env t st).streaming = true) :
    (applyValidReports reports createMouseState).accX =
      ((correctedDeltas reports createMouseState).map Prod.fst).sum ∧
    (applyValidReports reports createMouseState).accY =
      ((correctedDeltas reports createMouseState).map Prod.snd).sum ∧
    stMouse (connect b env t st).state t = createMouseState ∧
    processMouseInputReport r (stMouse (connect b env t st).state t) =
      processMouseInputReport r createMouseState := by
  have hsum := applyValidReports_acc reports createMouseState
  have hreset : stMouse (connect b env t st).state t = createMouseState := by
    rw [connect_streaming_state b env t st h, stMouse_clearError, stMouse_setMouse_self]
  refine ⟨?_, ?_, hreset, by rw [hreset]⟩
  · simpa [createMouseState] using hsum.1
  · simpa [createMouseState] using hsum.2

/-- Witness for C2: one report, a succeeding environment and a stale prior
state. -/
theorem accumulatedPosition_sum_and_reset_witness :
    (applyValidReports [exampleReport] createMouseState).accX =
      ((correctedDeltas [exampleReport] createMouseState).map Prod.fst).sum ∧
    stMouse (connect false envOk ControllerType.L statePressed5).state ControllerType.L =
      createMouseState := by
  have h := accumulatedPosition_sum_and_reset [exampleReport] exampleReport false envOk
    ControllerType.L statePressed5 (by rfl)
  exact ⟨h.1, h.2.2.1⟩

/-- Counterexample to C3: a successful connection of the Left side with a
stale pressed mask of 5 reaches streaming with the pressed mask still 5 —
`connect` never resets `pressed[type]`. -/
theorem connect_success_pressed_stale :
    (connect false envOk ControllerType.L statePressed5).streaming = true ∧
    stPressed (connect false envOk ControllerType.L statePressed5).state ControllerType.L =
      5 := by
  exact ⟨rfl, rfl⟩

/-- Claim C3 (amended): whenever a connection attempt reaches the streaming
state, the side's mouse state (accumulated position and raw counter) is
reset to its initial value before any inbound report is processed, and the
stored error is cleared; the pressed mask is left unchanged (it is only
replaced when the first report arrives). -/
theorem connect_success_resets_mouse (b : Bool) (env : Env) (t : ControllerType)
    (st : AppState) (h : (connect b env t st).streaming = true) :
    stMouse (connect b env t st).state t = createMouseState ∧
    stPressed (connect b env t st).state t = stPressed st t ∧
    (connect b env t st).state.errorRef = none := by
  rw [connect_streaming_state b env t st h]
  refine ⟨?_, ?_, rfl⟩
  · rw [stMouse_clearError, stMouse_setMouse_self]
  · rw [stPressed_clearError, stPressed_setMouse, stPressed_cursor]

/-- Witness for C3 (amended) at a concrete succeeding environment. -/
theorem connect_success_resets_mouse_witness :
    stMouse (connect false envOk ControllerType.L statePressed5).state ControllerType.L =
      createMouseState ∧
    stPressed (connect false envOk ControllerType.L statePressed5).state ControllerType.L =
      5 := by
  have h := connect_success_resets_mouse false envOk ControllerType.L statePressed5 (by rfl)
  exact ⟨h.1, h.2.1.trans rfl⟩

/-- Claim C4: a connection attempt that fails anywhere before streaming
leaves the pressed masks and mouse states of both sides unchanged, and the
failure is caught and converted into one user-visible message. -/
theorem connect_failure_preserves_state (b : Bool) (env : Env) (t : ControllerType)
    (st : AppState) (h : (connect b env t st).streaming = false) :
    stPressed (connect b env t st).state t = stPressed st t ∧
    stMouse (connect b env t st).state t = stMouse st t ∧
    (connect b env t st).state.mouseL = st.mouseL ∧
    (connect b env t st).state.mouseR = st.mouseR ∧
    (connect b env t st).state.pressedL = st.pressedL ∧
    (connect b env t st).state.pressedR = st.pressedR ∧
    ∃ msg, errorMessage (connect b env t st).state.errorRef = some msg := by
  rcases connect_shape b env t st with ⟨e, he, hs⟩ | ⟨e, he, hs⟩ | ⟨he, hs⟩
  · rw [he]
    exact ⟨stPressed_setError st e t, stMouse_setError st e t, rfl, rfl, rfl, rfl,
      errorMessage_isSome e⟩
  · rw [he]
    refine ⟨?_, ?_, rfl, rfl, rfl, rfl, errorMessage_isSome e⟩
    · rw [stPressed_setError, stPressed_cursor]
    · rw [stMouse_setError, stMouse_cursor]
  · exact absurd (hs.symm.trans h) (by decide)

/-- Witness for C4: an attempt failing at the LED write leaves the stale
pressed mask and surfaces a message. -/
theorem connect_failure_preserves_state_witness :
    stPressed (connect false envFailLedWrite ControllerType.L statePressed5).state
      ControllerType.L = 5 ∧
    ∃ msg, errorMessage
      (connect false envFailLedWrite ControllerType.L statePressed5).state.errorRef =
        some msg := by
  have h := connect_failure_preserves_state false envFailLedWrite ControllerType.L
    statePressed5 (by rfl)
  exact ⟨h.1.trans rfl, h.2.2.2.2.2.2⟩

/-- Claim C6: when every external call succeeds, exactly three command
buffers are written, in strict order — the 16-byte LED command with the
sequencer's next value at byte index 8, then after a 500ms pause the two
12-byte indicator commands A and B, byte-for-byte as fixed constants. -/
theorem configuration_command_sequence (b : Bool) (env : Env) (t : ControllerType)
    (st : AppState) (h : Env.allOk env) :
    (connect b env t st).trace =
      [TraceEvent.write (ledCommand (ledPatternCycle.getD (st.ledCursor % 8) 0)),
       TraceEvent.sleepMs 500,
       TraceEvent.write indicatorCommandA,
       TraceEvent.sleepMs 500,
       TraceEvent.write indicatorCommandB] ∧
    (∀ p : Nat, ledCommand p =
        [0x09, 0x91, 0x01, 0x07, 0x00, 0x08, 0x00, 0x00, p,
         0x00, 0x00, 0x00, 0x00, 0x00, 0x00, 0x00] ∧
      (ledCommand p).length = 16 ∧ (ledCommand p).getD 8 0 = p) ∧
    indicatorCommandA =
      [0x0c, 0x91, 0x01, 0x02, 0x00, 0x04, 0x00, 0x00, 0xff, 0x00, 0x00, 0x00] ∧
    indicatorCommandA.length = 12 ∧
    indicatorCommandB =
      [0x0c, 0x91, 0x01, 0x04, 0x00, 0x04, 0x00, 0x00, 0xff, 0x00, 0x00, 0x00] ∧
    indicatorCommandB.length = 12 := by
  refine ⟨?_, fun p => ⟨rfl, rfl, rfl⟩, rfl, rfl, rfl, rfl⟩
  rw [connect_allOk b env t st h]

/-- Witness for C6 at a concrete succeeding environment and the initial
state (cursor 0, so the LED pattern is 1). -/
theorem configuration_command_sequence_witness :
    (connect false envOk ControllerType.L initialAppState).trace =
      [TraceEvent.write (ledCommand 1), TraceEvent.sleepMs 500,
       TraceEvent.write indicatorCommandA, TraceEvent.sleepMs 500,
       TraceEvent.write indicatorCommandB] := by
  have h := configuration_command_sequence false envOk ControllerType.L initialAppState
    ⟨rfl, rfl, rfl, rfl, rfl, rfl, rfl, rfl, rfl⟩
  exact h.1.trans rfl

/-- Counterexample to C8: an attempt that fails at the LED write (so no
successful connection is established) still advances the LED cursor by
one. -/
theorem ledCursor_advances_on_failed_connect :
    (connect false envFailLedWrite ControllerType.L initialAppState).state.ledCursor =
      initialAppState.ledCursor + 1 ∧
    (connect false envFailLedWrite ControllerType.L initialAppState).streaming = false ∧
    (connect false envFailLedWrite ControllerType.L initialAppState).state.errorRef ≠
      none := by
  refine ⟨rfl, rfl, by decide⟩

/-- Claim C8 (amended): the LED cursor is one process-wide state shared by
both sides; it advances by exactly one on every attempt that reaches the
configuration stage (hence on every successful connection, but also on
attempts that fail after that point), is unchanged otherwise, is never
rewound, and the pattern sent is `ledPatternCycle[cursor % 8]`. -/
theorem ledCursor_advancement (b : Bool) (env : Env) (t : ControllerType) (st : AppState) :
    ((connect b env t st).state.ledCursor =
      if reachesConfiguring b env then st.ledCursor + 1 else st.ledCursor) ∧
    st.ledCursor ≤ (connect b env t st).state.ledCursor ∧
    (reachesConfiguring b env = true →
      (connect b env t st).trace.head? =
        some (TraceEvent.write (ledCommand (ledPatternCycle.getD (st.ledCursor % 8) 0)))) := by
  have hmain : ((connect b env t st).state.ledCursor =
      if reachesConfiguring b env then st.ledCursor + 1 else st.ledCursor) ∧
      (reachesConfiguring b env = true →
        (connect b env t st).trace.head? =
          some (TraceEvent.write (ledCommand (ledPatternCycle.getD (st.ledCursor % 8) 0)))) := by
    unfold connect reachesConfiguring
    cases requestDeviceWithCatch b env.requestDevice with
    | error e => simp [setError]
    | ok device =>
        cases device with
        | mk g =>
            cases g with
            | false => simp [setError]
            | true =>
                dsimp only
                rw [if_pos rfl]
                cases env.gattConnect with
                | error e => simp [setError]
                | ok u =>
                cases env.getPrimaryService with
                | error e => simp [setError]
                | ok u =>
                cases env.getWriteCharacteristic with
                | error e => simp [setError]
                | ok u =>
                    constructor
                    · simpa using connectConfiguringPhase_cursor env t st
                    · intro _
                      exact connectConfiguringPhase_traceHead env t st
  refine ⟨hmain.1, ?_, hmain.2⟩
  rw [hmain.1]
  split <;> omega

/-- Witness for C8 (amended) at a concrete succeeding environment. -/
theorem ledCursor_advancement_witness :
    (connect false envOk ControllerType.L initialAppState).trace.head? =
      some (TraceEvent.write (ledCommand 1)) := by
  have h := (ledCursor_advancement false envOk ControllerType.L initialAppState).2.2 (by rfl)
  exact h.trans rfl

/-- Counterexample to C9: cancelling the chooser in Bluefy produces a
user-visible error message rather than a silent abort. -/
theorem cancellation_message_shown :
    errorMessage
        (connect true envCancelBluefy ControllerType.L initialAppState).state.errorRef =
      some "User cancelled the requestDevice() chooser in Bluefy app." ∧
    (connect true envCancelBluefy ControllerType.L initialAppState).streaming = false := by
  exact ⟨rfl, rfl⟩

/-- Claim C9 (amended): when the device-selection request rejects (as on
user cancellation), the attempt aborts before any command is written and
without mutating per-side state, but it is handled like every other
failure: the thrown value is stored and a user-visible message results —
in Bluefy, the dedicated cancellation message. -/
theorem cancellation_aborts_with_message (b : Bool) (env : Env) (t : ControllerType)
    (st : AppState) (e : JsError) (h : env.requestDevice = .error e) :
    (connect b env t st).streaming = false ∧
    (connect b env t st).trace = [] ∧
    stPressed (connect b env t st).state t = stPressed st t ∧
    stMouse (connect b env t st).state t = stMouse st t ∧
    (connect b env t st).state.ledCursor = st.ledCursor ∧
    (∃ msg, errorMessage (connect b env t st).state.errorRef = some msg) ∧
    (b = true → e = JsError.raw2 →
      errorMessage (connect b env t st).state.errorRef =
        some "User cancelled the requestDevice() chooser in Bluefy app.") := by
  have hc : connect b env t st = ⟨setError st (mapRequestError b e), [], false⟩ := by
    unfold connect requestDeviceWithCatch
    rw [h]
  rw [hc]
  refine ⟨rfl, rfl, stPressed_setError st _ t, stMouse_setError st _ t, rfl,
    errorMessage_isSome _, ?_⟩
  rintro rfl rfl
  rfl

/-- Witness for C9 (amended) at the Bluefy cancellation environment. -/
theorem cancellation_aborts_with_message_witness :
    errorMessage
        (connect true envCancelBluefy ControllerType.L initialAppState).state.errorRef =
      some "User cancelled the requestDevice() chooser in Bluefy app." := by
  have h := cancellation_aborts_with_message true envCancelBluefy ControllerType.L
    initialAppState JsError.raw2 rfl
  exact h.2.2.2.2.2.2 rfl rfl
